import Mathlib

/-!
Shallow embedding of the single-file intake pipeline in
`process_one_file.py` (classes `FilesManager`, `MongoCommonCollections`,
the `create_process_doc` metrics function and the `process_next_file`
orchestrator), together with theorems settling the spec claims.

Python dictionaries that can gain and lose keys are modelled as
structures with `Option`-typed fields (`none` = key absent); machine
floats produced by true division are modelled as exact rationals;
Python exceptions are modelled by the `PyResult` sum.  Component calls
whose outcome depends on the outside world (the directory listing, the
record store being reachable, the clock) are parameters of the
orchestrator, collected in `Ops`; the concrete in-repo stubs correspond
to the instantiation in which no component faults.
-/

namespace FileProcessor

/-- A Python exception, identified by its message. -/
abbrev Err := String

/-- Outcome of a Python expression: a value, or a raised exception. -/
inductive PyResult (α : Type) where
  | ok (a : α)
  | exn (e : Err)
deriving Repr, DecidableEq

/-- `true` exactly when the computation raised. -/
def PyResult.isExn {α : Type} : PyResult α → Bool
  | .ok _ => false
  | .exn _ => true

/-- `os.path.join` for a relative second component. -/
def pathJoin (a b : String) : String := a ++ "/" ++ b

/-- Python truthiness of an optional string (`None` and `""` are falsy). -/
def strTruthy : Option String → Bool
  | none => false
  | some s => s ≠ ""

/-- `x or d` for an optional Python int (`None` and `0` are falsy). -/
def pyOrInt (x : Option Int) (d : Int) : Int :=
  match x with
  | none => d
  | some v => if v = 0 then d else v

/-- `x or d` for a Python float modelled as a rational (`0.0` is falsy). -/
def pyOrRat (x : ℚ) (d : ℚ) : ℚ := if x = 0 then d else x

/-- Python `/` (true division): raises `ZeroDivisionError` on divisor 0. -/
def pyDiv (a b : ℚ) : PyResult ℚ :=
  if b = 0 then .exn "ZeroDivisionError" else .ok (a / b)

/-- `datetime` instants are microseconds since the epoch; `isoformat`
is an injective rendering whose exact format no claim depends on. -/
def isoformat (t : Int) : String := toString t

/-- The dict returned by `FilesManager.get_first_available_file`. -/
structure FileToProc where
  file_name : String
  full_path : String
deriving Repr, DecidableEq

/-- The `files_path` configuration dict; `.get` of a missing key is `none`. -/
structure FilesPath where
  repo_path : Option String
  ok_path : Option String
  err_path : Option String
deriving Repr, DecidableEq

/-- One entry of a directory listing: a name, and whether
`os.path.isfile` holds for it (i.e. it is a regular file). -/
structure DirEntry where
  name : String
  isFile : Bool
deriving Repr, DecidableEq

/-- The filesystem as seen by the selector: the directories that exist,
each with its listing. -/
structure FS where
  dirs : List (String × List DirEntry)
deriving Repr, DecidableEq

/-- `files.sort(reverse=reverse_time_order)`: ascending lexicographic
sort, or descending when the flag is set. -/
def sortFiles (reverse_time_order : Bool) (files : List String) : List String :=
  if reverse_time_order then List.insertionSort (fun a b => b ≤ a) files
  else List.insertionSort (fun a b => a ≤ b) files

/-- `FilesManager.get_first_available_file`: `None` when `repo_path` is
missing/empty, does not exist, or holds no regular file; otherwise the
head of the sorted listing paired with its joined path. -/
def get_first_available_file (fs : FS) (files_path : FilesPath)
    (reverse_time_order : Bool) : Option FileToProc :=
  match files_path.repo_path with
  | none => none
  | some repo_path =>
    if repo_path = "" then none
    else
      match List.lookup repo_path fs.dirs with
      | none => none
      | some entries =>
        let files := (entries.filter (fun e => e.isFile)).map (fun e => e.name)
        if files.isEmpty then none
        else
          match (sortFiles reverse_time_order files).head? with
          | none => none
          | some h => some { file_name := h, full_path := pathJoin repo_path h }

/-- The filesystem as seen by `move_file`: existing file paths and
existing directories. -/
structure MoveFS where
  files : List String
  dirs : List String
deriving Repr, DecidableEq

/-- Which lower-level I/O calls inside `move_file` raise. -/
structure MoveFaults where
  makedirsFault : Bool
  renameFault : Bool
deriving Repr, DecidableEq

/-- The `try:` body of `FilesManager.move_file`, before the
catch-all `except`: join paths, `os.makedirs(to_path, exist_ok=True)`,
then rename when the source exists. -/
def move_file_try (fs : MoveFS) (faults : MoveFaults)
    (file_name from_path to_path : String) : PyResult Bool × MoveFS :=
  let src := pathJoin from_path file_name
  let dst := pathJoin to_path file_name
  if faults.makedirsFault then (.exn "makedirs failed", fs)
  else
    let fs1 : MoveFS :=
      { fs with dirs := if to_path ∈ fs.dirs then fs.dirs else to_path :: fs.dirs }
    if src ∈ fs1.files then
      if faults.renameFault then (.exn "rename failed", fs1)
      else (.ok true, { fs1 with files := dst :: fs1.files.erase src })
    else (.ok false, fs1)

/-- `FilesManager.move_file`: the body with every exception caught,
logged and converted to a `False` return. -/
def move_file (fs : MoveFS) (faults : MoveFaults)
    (file_name from_path to_path : String) : Bool × MoveFS :=
  match move_file_try fs faults file_name from_path to_path with
  | (.ok b, fs') => (b, fs')
  | (.exn _, fs') => (false, fs')

/-- `Commons.OnFileProcErr.FAIL`. -/
def OnFileProcErr.FAIL : String := "FAIL"

/-- `Commons.OnFileProcErr.OK`. -/
def OnFileProcErr.OK : String := "OK"

/-- The `totals` sub-dict of a processing summary.  `records_ok` is
read with `[...]` (required); the others are read with `.get`. -/
structure Totals where
  raw_lines : Option Int
  records_ok : Int
  transactions : Option Int
  site_name : Option String := none
deriving Repr, DecidableEq

/-- The `error` sub-dict of a processing summary. -/
structure ErrorInfo where
  flag : String
  message : String
deriving Repr, DecidableEq

/-- The summary dict returned by `FileParser.import_feed_file`
(`error = none` models Python `None`). -/
structure Summary where
  totals : Totals
  error : Option ErrorInfo
deriving Repr, DecidableEq

/-- The metrics document built by `create_process_doc`, and also the
`summary` sub-document stored in the job record (whose scalar keys get
deleted): `none` means the key is absent from the dict. -/
structure ProcessDoc where
  start_time : Option String := none
  end_time : Option String := none
  elapsed_time_in_millisecs : Option Int := none
  elapsed_time_in_secs : Option ℚ := none
  valid_transac_perc : Option ℚ := none
  tps : Option ℚ := none
  totals : Option Totals := none
  error : Option ErrorInfo := none
deriving Repr, DecidableEq

/-- The `job_payload[proc_name]` stage dict: created with `start_time`
and `status`, later gaining `site_name`, the `summary` sub-document and
the six scalar metric keys moved out of it. -/
structure StageSlot where
  start_time : String
  status : String
  site_name : Option String := none
  summary : Option ProcessDoc := none
  end_time : Option String := none
  elapsed_time_in_millisecs : Option Int := none
  elapsed_time_in_secs : Option ℚ := none
  valid_transac_perc : Option ℚ := none
  tps : Option ℚ := none
deriving Repr, DecidableEq

/-- The `job_payload` dict passed to the job recorder. -/
structure JobPayload where
  process_id : String
  file : String
  star_date : String
  input_processor : StageSlot
deriving Repr, DecidableEq

/-- The in-memory job store of `MongoCommonCollections`
(`sequences` is unused by the orchestrator and omitted). -/
structure MongoCommonCollections where
  jobs : List (String × JobPayload)
  job_counter : Nat
deriving Repr, DecidableEq

/-- `MongoCommonCollections.create_job`: bump the counter, mint the id
`JOB_<counter>` and store the payload under it. -/
def create_job (st : MongoCommonCollections) (payload : JobPayload) :
    String × MongoCommonCollections :=
  let counter := st.job_counter + 1
  let job_id := "JOB_" ++ toString counter
  (job_id, { jobs := (job_id, payload) :: st.jobs, job_counter := counter })

/-- `MongoCommonCollections.update_job`: when the id is known, merge the
patch into the stored record (the orchestrator's patch carries every
key, so the merge is a replacement); the function returns `True` on
every path. -/
def update_job (st : MongoCommonCollections) (job_id : String)
    (payload : JobPayload) : MongoCommonCollections × Bool :=
  if (List.lookup job_id st.jobs).isSome then
    ({ st with
        jobs := st.jobs.map (fun kv => if kv.1 = job_id then (job_id, payload) else kv) },
      true)
  else
    (st, true)

/-- `create_process_doc(start_proc_file_time, summary)`: timing fields
from the two clock readings, then the two guarded divisions
(`tot.get('raw_lines') or 1`, `doc['elapsed_time_in_secs'] or 1`,
`tot.get('transactions') or -1`), then the copy of every sub-dict of
the summary (`totals` always; `error` only when it is a dict). -/
def create_process_doc (start_proc_file_time now : Int) (summary : Summary) :
    PyResult ProcessDoc :=
  let tot := summary.totals
  let start_time := isoformat start_proc_file_time
  let end_time := isoformat now
  let elapsed_ms : Int := Int.tdiv (now - start_proc_file_time) 1000
  let elapsed_s : ℚ := (elapsed_ms : ℚ) / 1000
  match pyDiv (tot.records_ok : ℚ) ((pyOrInt tot.raw_lines 1 : Int) : ℚ) with
  | .exn e => .exn e
  | .ok q =>
    match pyDiv ((pyOrInt tot.transactions (-1) : Int) : ℚ) (pyOrRat elapsed_s 1) with
    | .exn e => .exn e
    | .ok t =>
      .ok { start_time := some start_time
            end_time := some end_time
            elapsed_time_in_millisecs := some elapsed_ms
            elapsed_time_in_secs := some elapsed_s
            valid_transac_perc := some (q * 100)
            tps := some t
            totals := some tot
            error := summary.error }

/-- Line 212 of the source: the `ret` flag extracted from the summary,
`'OK'` when `error` is falsy, else the error dict's `flag`. -/
def summaryRet (s : Summary) : String :=
  match s.error with
  | some ei => ei.flag
  | none => OnFileProcErr.OK

/-- Outcomes of the component calls made by one invocation of
`process_next_file`, plus the two clock readings (`t0` at run start,
`t1` inside `create_process_doc`).  `none` in a `...Fault` field means
the call returns normally, in which case the concrete in-repo
implementation runs. -/
structure Ops where
  selectResult : PyResult (Option FileToProc)
  createJobFault : Option Err
  importResult : PyResult Summary
  moveFileResult : Bool
  updateJobFault : Option Err
  cleanupFault : Option Err
  t0 : Int
  t1 : Int
deriving Repr, DecidableEq

/-- Observable record of the component calls one invocation makes. -/
structure Trace where
  createJobCalls : Nat := 0
  moveCalls : Nat := 0
  updateJobCalls : Nat := 0
  cleanupCalls : Nat := 0
  movedTo : Option (Option String) := none
  updatedPayload : Option JobPayload := none
  consumedSummary : Option Summary := none
deriving Repr, DecidableEq

/-- The dict returned by `process_next_file` on its non-`None` paths:
`hist_doc` is `none` when `process_results_doc` was never assigned. -/
structure RunResult where
  file_name : String
  hist_doc : Option ProcessDoc
deriving Repr, DecidableEq

/-- What the caller and the store observe after one invocation. -/
structure RunOutcome where
  result : PyResult (Option RunResult)
  trace : Trace
  store : MongoCommonCollections
deriving Repr, DecidableEq

/-- Result of the inner `try:` body (source lines 187-247): the value
returned or the exception raised, together with the local variables
`file_to_proc` and `process_results_doc` as the body left them. -/
structure BodyOut where
  outcome : PyResult (Option RunResult)
  file_to_proc : Option FileToProc
  process_results_doc : Option ProcessDoc
  trace : Trace
  store : MongoCommonCollections
deriving Repr, DecidableEq

/-- The unrolled `mv_out_arr` loop (source lines 229-241): each of the
six scalar metric keys present in `summ_src` is copied up into the
stage dict and deleted from `summ_src`. -/
def mvOut (stage : StageSlot) (summ_src : ProcessDoc) : StageSlot × ProcessDoc :=
  let (g1, s1) :=
    match summ_src.start_time with
    | some v => ({ stage with start_time := v }, { summ_src with start_time := none })
    | none => (stage, summ_src)
  let (g2, s2) :=
    match s1.end_time with
    | some v => ({ g1 with end_time := some v }, { s1 with end_time := none })
    | none => (g1, s1)
  let (g3, s3) :=
    match s2.elapsed_time_in_millisecs with
    | some v => ({ g2 with elapsed_time_in_millisecs := some v },
                 { s2 with elapsed_time_in_millisecs := none })
    | none => (g2, s2)
  let (g4, s4) :=
    match s3.elapsed_time_in_secs with
    | some v => ({ g3 with elapsed_time_in_secs := some v },
                 { s3 with elapsed_time_in_secs := none })
    | none => (g3, s3)
  let (g5, s5) :=
    match s4.valid_transac_perc with
    | some v => ({ g4 with valid_transac_perc := some v },
                 { s4 with valid_transac_perc := none })
    | none => (g4, s4)
  let (g6, s6) :=
    match s5.tps with
    | some v => ({ g5 with tps := some v }, { s5 with tps := none })
    | none => (g5, s5)
  (g6, s6)

/-- The inner `try:` body of `process_next_file` (source lines
187-247): select a file, open the job record, run the transformer,
choose the destination directory from the error flag and call
`move_file`, move `site_name` out of the summary, build the metrics
document, scrub its copy inside the stage dict, and finalize the job
record. -/
def process_body (ops : Ops) (store : MongoCommonCollections)
    (files_path : FilesPath) : BodyOut :=
  match ops.selectResult with
  | .exn e => ⟨.exn e, none, none, {}, store⟩
  | .ok none => ⟨.ok none, none, none, {}, store⟩
  | .ok (some file_to_proc) =>
    let start_iso := isoformat ops.t0
    let job_payload0 : JobPayload :=
      { process_id := "FileProcessor"
        file := file_to_proc.file_name
        star_date := start_iso
        input_processor := { start_time := start_iso, status := "processing" } }
    match ops.createJobFault with
    | some e => ⟨.exn e, some file_to_proc, none, {}, store⟩
    | none =>
      let jc := create_job store job_payload0
      let job_id := jc.1
      let store1 := jc.2
      let tr1 : Trace := { createJobCalls := 1 }
      match ops.importResult with
      | .exn e => ⟨.exn e, some file_to_proc, none, tr1, store1⟩
      | .ok summary =>
        let ret := summaryRet summary
        let to_path : Option String :=
          if ret = OnFileProcErr.FAIL then files_path.err_path else files_path.ok_path
        let tr2 : Trace := { tr1 with moveCalls := 1, movedTo := some to_path }
        let ps :=
          if strTruthy summary.totals.site_name then
            ({ job_payload0 with
                input_processor :=
                  { job_payload0.input_processor with
                      site_name := summary.totals.site_name } },
             { summary with totals := { summary.totals with site_name := none } })
          else (job_payload0, summary)
        let job_payload1 := ps.1
        let summary1 := ps.2
        let tr3 : Trace := { tr2 with consumedSummary := some summary1 }
        match create_process_doc ops.t0 ops.t1 summary1 with
        | .exn e => ⟨.exn e, some file_to_proc, none, tr3, store1⟩
        | .ok doc =>
          let status := if ret = OnFileProcErr.FAIL then "error" else "finished"
          let stage0 := { job_payload1.input_processor with status := status }
          let ms := mvOut stage0 doc
          let job_payload2 :=
            { job_payload1 with
                input_processor := { ms.1 with summary := some ms.2 } }
          match ops.updateJobFault with
          | some e => ⟨.exn e, some file_to_proc, some doc, tr3, store1⟩
          | none =>
            let store2 := (update_job store1 job_id job_payload2).1
            let tr4 : Trace :=
              { tr3 with updateJobCalls := 1, updatedPayload := some job_payload2 }
            ⟨.ok (some { file_name := file_to_proc.file_name, hist_doc := some doc }),
              some file_to_proc, some doc, tr4, store2⟩

/-- `process_next_file`: run the inner body, then the `except`/`finally`
discipline of source lines 249-264 — every exception from the body is
caught and logged; when a file was selected the queue-cleanup step runs
once and an exception raised by it propagates through the outer
re-raise; otherwise the invocation returns `None` or the partial
result. -/
def process_next_file (ops : Ops) (store : MongoCommonCollections)
    (files_path : FilesPath) : RunOutcome :=
  let b := process_body ops store files_path
  match b.file_to_proc with
  | none => ⟨.ok none, b.trace, b.store⟩
  | some f =>
    let tr := { b.trace with cleanupCalls := b.trace.cleanupCalls + 1 }
    match ops.cleanupFault with
    | some e => ⟨.exn e, tr, b.store⟩
    | none =>
      match b.outcome with
      | .ok v => ⟨.ok v, tr, b.store⟩
      | .exn _ =>
        ⟨.ok (some { file_name := f.file_name, hist_doc := b.process_results_doc }),
          tr, b.store⟩

/-! Concrete instances used by the counterexample and witness theorems. -/

/-- A degenerate summary: zero raw lines, zero valid records. -/
def c6s : Summary :=
  ⟨{ raw_lines := some 0, records_ok := 0, transactions := some 5 }, none⟩

/-- The metrics document `create_process_doc 0 0 c6s` produces. -/
def c6doc : ProcessDoc :=
  { start_time := some "0", end_time := some "0",
    elapsed_time_in_millisecs := some 0, elapsed_time_in_secs := some 0,
    valid_transac_perc := some 0, tps := some 5,
    totals := some { raw_lines := some 0, records_ok := 0, transactions := some 5 },
    error := none }

/-- A summary whose `transactions` count is present and equal to `0`. -/
def c7s : Summary :=
  ⟨{ raw_lines := some 100, records_ok := 95, transactions := some 0 }, none⟩

/-- The metrics document `create_process_doc 0 0 c7s` produces: the
present-but-zero transactions count is replaced by the sentinel `-1`. -/
def c7doc : ProcessDoc :=
  { start_time := some "0", end_time := some "0",
    elapsed_time_in_millisecs := some 0, elapsed_time_in_secs := some 0,
    valid_transac_perc := some 95, tps := some (-1),
    totals := some { raw_lines := some 100, records_ok := 95, transactions := some 0 },
    error := none }

/-- A directory listing with two regular files and a subdirectory. -/
def c8entries : List DirEntry := [⟨"b.csv", true⟩, ⟨"a.csv", true⟩, ⟨"sub", false⟩]

/-- A filesystem whose watch directory `d` holds `c8entries`. -/
def c8fs : FS := ⟨[("d", c8entries)]⟩

/-- The directory configuration used by the concrete runs. -/
def c8fp : FilesPath := ⟨some "d", some "ok", some "err"⟩

/-- Component outcomes for a run whose selector finds no file. -/
def c8ops : Ops := ⟨.ok none, none, .exn "unused", true, none, none, 0, 0⟩

/-- An empty job store. -/
def c8store : MongoCommonCollections := ⟨[], 0⟩

/-- A run whose selector raises before any file is selected. -/
def c1ops : Ops := ⟨.exn "selector down", none, .exn "unused", true, none, none, 0, 0⟩

/-- A run in which a file is selected but the queue-cleanup step raises. -/
def c1wops : Ops :=
  ⟨.ok (some ⟨"f.csv", "d/f.csv"⟩), none, .exn "parse failed", true, none,
    some "cleanup down", 0, 0⟩

/-- The directory configuration for the C1 runs. -/
def c1fp : FilesPath := ⟨some "d", some "ok", some "err"⟩

/-- An empty job store for the C1 runs. -/
def c1store : MongoCommonCollections := ⟨[], 0⟩

/-- The file selected in the C2 runs. -/
def c2file : FileToProc := ⟨"f.csv", "d/f.csv"⟩

/-- A run in which a file is selected but the job recorder's create
call raises (the recorder is unreachable). -/
def c2ops : Ops := ⟨.ok (some c2file), some "recorder down", .exn "unused", true, none, none, 0, 0⟩

/-- A fault-free run over the summary `c6s` for the C2 witness. -/
def c2wops : Ops := ⟨.ok (some c2file), none, .ok c6s, true, none, none, 0, 0⟩

/-- The directory configuration for the C2 runs. -/
def c2fp : FilesPath := ⟨some "d", some "ok", some "err"⟩

/-- An empty job store for the C2 runs. -/
def c2store : MongoCommonCollections := ⟨[], 0⟩

/-- The file selected in the C4 run. -/
def c4file : FileToProc := ⟨"f.csv", "d/f.csv"⟩

/-- The transformer output of the C4 run. -/
def c4summary : Summary := ⟨⟨some 100, 95, some 95, none⟩, none⟩

/-- A fault-free run over `c4summary`. -/
def c4ops : Ops := ⟨.ok (some c4file), none, .ok c4summary, true, none, none, 0, 0⟩

/-- The directory configuration for the C4 run. -/
def c4fp : FilesPath := ⟨some "d", some "ok", some "err"⟩

/-- An empty job store for the C4 run. -/
def c4store : MongoCommonCollections := ⟨[], 0⟩

/-- The metrics document the C4 run returns as `hist_doc`: all six
scalar metric fields are still present. -/
def c4doc : ProcessDoc :=
  ⟨some "0", some "0", some 0, some 0, some 95, some 95,
    some ⟨some 100, 95, some 95, none⟩, none⟩

/-- The file selected in the C5 run. -/
def c5file : FileToProc := ⟨"f.csv", "d/f.csv"⟩

/-- A transformer output carrying a `site_name` tag. -/
def c5summary : Summary := ⟨⟨some 100, 95, some 95, some "Site_A"⟩, none⟩

/-- `c5summary` as the orchestrator leaves it: `site_name` deleted. -/
def c5mut : Summary := ⟨⟨some 100, 95, some 95, none⟩, none⟩

/-- A fault-free run over `c5summary`. -/
def c5ops : Ops := ⟨.ok (some c5file), none, .ok c5summary, true, none, none, 0, 0⟩

/-- The directory configuration for the C5 run. -/
def c5fp : FilesPath := ⟨some "d", some "ok", some "err"⟩

/-- An empty job store for the C5 run. -/
def c5store : MongoCommonCollections := ⟨[], 0⟩

/-- The file selected in the C9 run. -/
def c9file : FileToProc := ⟨"f.csv", "d/f.csv"⟩

/-- A transformer output whose error flag is `FAIL`. -/
def c9summary : Summary := ⟨⟨some 0, 0, some 0, none⟩, some ⟨"FAIL", "parse error"⟩⟩

/-- A fault-free run over the failing summary `c9summary`. -/
def c9ops : Ops := ⟨.ok (some c9file), none, .ok c9summary, true, none, none, 0, 0⟩

/-- The directory configuration for the C9 run. -/
def c9fp : FilesPath := ⟨some "d", some "ok", some "err"⟩

/-- An empty job store for the C9 run. -/
def c9store : MongoCommonCollections := ⟨[], 0⟩

instance : IsTotal String (fun a b => b ≤ a) := ⟨fun a b => le_total b a⟩

instance : IsTrans String (fun a b => b ≤ a) := ⟨fun _ _ _ hab hbc => le_trans hbc hab⟩

/-! Helper lemmas shared by the claim theorems. -/

lemma isoformat_zero : isoformat 0 = "0" := rfl

lemma pyOrInt_ne_zero (x : Option Int) {d : Int} (hd : d ≠ 0) : pyOrInt x d ≠ 0 := by
  cases x with
  | none => exact hd
  | some v =>
    by_cases h : v = 0
    · simp only [pyOrInt, if_pos h]; exact hd
    · simp only [pyOrInt, if_neg h]; exact h

lemma pyOrRat_ne_zero (x : ℚ) : pyOrRat x 1 ≠ 0 := by
  by_cases h : x = 0
  · simp [pyOrRat, h]
  · simp only [pyOrRat, if_neg h]; exact h

lemma pyOrRat_pos (x : ℚ) (hx : 0 ≤ x) : 0 < pyOrRat x 1 := by
  by_cases h : x = 0
  · norm_num [pyOrRat, h]
  · rw [pyOrRat, if_neg h]; exact lt_of_le_of_ne hx (Ne.symm h)

/-- Closed form of `create_process_doc`: both guarded divisions succeed,
so the function never raises and every field has this explicit value. -/
lemma create_process_doc_eq (t0 t1 : Int) (s : Summary) :
    create_process_doc t0 t1 s = .ok
      { start_time := some (isoformat t0)
        end_time := some (isoformat t1)
        elapsed_time_in_millisecs := some (Int.tdiv (t1 - t0) 1000)
        elapsed_time_in_secs := some ((Int.tdiv (t1 - t0) 1000 : ℚ) / 1000)
        valid_transac_perc :=
          some ((s.totals.records_ok : ℚ) / ((pyOrInt s.totals.raw_lines 1 : Int) : ℚ) * 100)
        tps := some (((pyOrInt s.totals.transactions (-1) : Int) : ℚ) /
          pyOrRat ((Int.tdiv (t1 - t0) 1000 : ℚ) / 1000) 1)
        totals := some s.totals
        error := s.error } := by
  have h1 : ((pyOrInt s.totals.raw_lines 1 : Int) : ℚ) ≠ 0 := by
    exact_mod_cast pyOrInt_ne_zero s.totals.raw_lines one_ne_zero
  have h2 : pyOrRat ((Int.tdiv (t1 - t0) 1000 : ℚ) / 1000) 1 ≠ 0 := pyOrRat_ne_zero _
  simp [create_process_doc, pyDiv, h1, h2]

lemma head_of_insertionSort_le (l : List String) (h : String)
    (hh : (List.insertionSort (fun a b : String => a ≤ b) l).head? = some h) :
    h ∈ l ∧ ∀ x ∈ l, h ≤ x := by
  have hs := List.sorted_insertionSort (fun a b : String => a ≤ b) l
  have hp := List.perm_insertionSort (fun a b : String => a ≤ b) l
  cases e : List.insertionSort (fun a b : String => a ≤ b) l with
  | nil => rw [e] at hh; simp at hh
  | cons a t =>
    rw [e] at hh hs hp
    injection hh with hh
    subst hh
    refine ⟨hp.mem_iff.mp (List.mem_cons_self _ _), ?_⟩
    intro x hx
    rcases List.mem_cons.mp (hp.mem_iff.mpr hx) with hxa | hxt
    · exact le_of_eq hxa.symm
    · exact List.rel_of_sorted_cons hs x hxt

lemma head_of_insertionSort_ge (l : List String) (h : String)
    (hh : (List.insertionSort (fun a b : String => b ≤ a) l).head? = some h) :
    h ∈ l ∧ ∀ x ∈ l, x ≤ h := by
  have hs := List.sorted_insertionSort (fun a b : String => b ≤ a) l
  have hp := List.perm_insertionSort (fun a b : String => b ≤ a) l
  cases e : List.insertionSort (fun a b : String => b ≤ a) l with
  | nil => rw [e] at hh; simp at hh
  | cons a t =>
    rw [e] at hh hs hp
    injection hh with hh
    subst hh
    refine ⟨hp.mem_iff.mp (List.mem_cons_self _ _), ?_⟩
    intro x hx
    rcases List.mem_cons.mp (hp.mem_iff.mpr hx) with hxa | hxt
    · exact le_of_eq hxa
    · exact List.rel_of_sorted_cons hs x hxt

/-- The sort of a nonempty list is nonempty and its head is the
minimum (ascending) or maximum (descending). -/
lemma sortFiles_head (rev : Bool) (files : List String) (hfne : files ≠ []) :
    ∃ h, (sortFiles rev files).head? = some h ∧ h ∈ files
      ∧ (rev = false → ∀ x ∈ files, h ≤ x)
      ∧ (rev = true → ∀ x ∈ files, x ≤ h) := by
  cases rev with
  | false =>
    have hsne : sortFiles false files ≠ [] := by
      unfold sortFiles
      simp only [if_neg Bool.false_ne_true]
      intro h0
      exact hfne (List.Perm.eq_nil
        ((List.perm_insertionSort (fun a b : String => a ≤ b) files).symm.trans (h0 ▸ List.Perm.refl _)))
    obtain ⟨a, t, he⟩ := List.exists_cons_of_ne_nil hsne
    refine ⟨a, by rw [he]; rfl, ?_, ?_, by simp⟩
    · have := head_of_insertionSort_le files a (by
        have : sortFiles false files = List.insertionSort (fun a b : String => a ≤ b) files := by
          simp [sortFiles]
        rw [← this, he]; rfl)
      exact this.1
    · intro _
      have := head_of_insertionSort_le files a (by
        have : sortFiles false files = List.insertionSort (fun a b : String => a ≤ b) files := by
          simp [sortFiles]
        rw [← this, he]; rfl)
      exact this.2
  | true =>
    have hsne : sortFiles true files ≠ [] := by
      unfold sortFiles
      simp only [if_pos rfl]
      intro h0
      exact hfne (List.Perm.eq_nil
        ((List.perm_insertionSort (fun a b : String => b ≤ a) files).symm.trans (h0 ▸ List.Perm.refl _)))
    obtain ⟨a, t, he⟩ := List.exists_cons_of_ne_nil hsne
    refine ⟨a, by rw [he]; rfl, ?_, by simp, ?_⟩
    · have := head_of_insertionSort_ge files a (by
        have : sortFiles true files = List.insertionSort (fun a b : String => b ≤ a) files := by
          simp [sortFiles]
        rw [← this, he]; rfl)
      exact this.1
    · intro _
      have := head_of_insertionSort_ge files a (by
        have : sortFiles true files = List.insertionSort (fun a b : String => b ≤ a) files := by
          simp [sortFiles]
        rw [← this, he]; rfl)
      exact this.2

/-! Claim theorems. -/

/-- C3 counterexample: calling `update_job` with a job id absent from
the store leaves the store unchanged but returns `true`, not the
failure indication `false` the claim requires. -/
theorem claim_C3_cex :
    List.lookup "JOB_1" (⟨[], 0⟩ : MongoCommonCollections).jobs = none
    ∧ update_job ⟨[], 0⟩ "JOB_1"
        { process_id := "FileProcessor", file := "f.csv", star_date := "0",
          input_processor := { start_time := "0", status := "processing" } }
      = (⟨[], 0⟩, true) := by
  exact ⟨rfl, rfl⟩

/-- C3 (amended): for every call to `update_job` with a job id that is
not present in the store, the stored records are left unchanged and the
call returns `true` (a success indication) — an entirely silent no-op
rather than a raised error or a `false` return. -/
theorem claim_C3 (st : MongoCommonCollections) (job_id : String)
    (p : JobPayload) (h : List.lookup job_id st.jobs = none) :
    update_job st job_id p = (st, true) := by
  simp [update_job, h]

/-- C3 witness: the amended theorem applied to an empty store. -/
theorem claim_C3_witness :
    update_job ⟨[], 0⟩ "JOB_9"
        { process_id := "FileProcessor", file := "g.csv", star_date := "0",
          input_processor := { start_time := "0", status := "processing" } }
      = (⟨[], 0⟩, true) :=
  claim_C3 ⟨[], 0⟩ "JOB_9" _ rfl

/-- C6: `create_process_doc` never raises; with `raw_lines = 0` the
percent division is by the guarded divisor 1 (hence `0` when
`records_ok = 0`), and with a zero elapsed-seconds value the throughput
division is by the guarded divisor 1. -/
theorem claim_C6 (t0 t1 : Int) (s : Summary) :
    (create_process_doc t0 t1 s).isExn = false
    ∧ ∀ d, create_process_doc t0 t1 s = .ok d →
        (s.totals.raw_lines = some 0 →
          d.valid_transac_perc = some ((s.totals.records_ok : ℚ) / 1 * 100)
          ∧ (s.totals.records_ok = 0 → d.valid_transac_perc = some 0))
        ∧ (d.elapsed_time_in_secs = some 0 →
          d.tps = some (((pyOrInt s.totals.transactions (-1) : Int) : ℚ) / 1)) := by
  rw [create_process_doc_eq]
  refine ⟨rfl, ?_⟩
  intro d hd
  injection hd with hd
  subst hd
  constructor
  · intro hraw
    have hg : pyOrInt s.totals.raw_lines 1 = 1 := by simp [pyOrInt, hraw]
    constructor
    · simp [hg]
    · intro hro
      simp [hg, hro]
  · intro hsec
    injection hsec with hsec
    simp [pyOrRat, hsec]

/-- C6 witness: the theorem applied to the degenerate summary
(`raw_lines = 0`, `records_ok = 0`, zero elapsed time): no exception is
raised, the percentage is the guarded `0` and the throughput is the
guarded `transactions / 1`. -/
theorem claim_C6_witness :
    (create_process_doc 0 0 c6s).isExn = false
    ∧ c6doc.valid_transac_perc = some 0
    ∧ c6doc.tps = some 5 := by
  have h := claim_C6 0 0 c6s
  have hd : create_process_doc 0 0 c6s = .ok c6doc := by
    rw [create_process_doc_eq]
    norm_num [c6s, c6doc, pyOrInt, pyOrRat, isoformat_zero]
  have htps := (h.2 c6doc hd).2 rfl
  refine ⟨h.1, ((h.2 c6doc hd).1 rfl).2 rfl, ?_⟩
  rw [htps]
  norm_num [pyOrInt, c6s]

/-- C7 counterexample: with a present transactions count of `0` (summary
`c7s`, zero elapsed time), the throughput numerator is the sentinel `-1`
and the computed `tps` is `-1`, not the `0` the claim requires. -/
theorem claim_C7_cex :
    c7s.totals.transactions = some 0
    ∧ create_process_doc 0 0 c7s = .ok c7doc
    ∧ c7doc.tps = some (-1)
    ∧ c7doc.tps ≠ some 0 := by
  refine ⟨rfl, ?_, rfl, by simp [c7doc]⟩
  rw [create_process_doc_eq]
  norm_num [c7s, c7doc, pyOrInt, pyOrRat, isoformat_zero]

/-- C7 (amended): the throughput numerator is the summary's
transactions count whenever that count is present *and nonzero*, and
the sentinel `-1` when the count is absent *or zero* (Python `or`
treats a present `0` as falsy); so an absent or zero count yields a
negative throughput whenever the elapsed time is nonnegative, while a
present nonzero count is divided by the guarded elapsed seconds. -/
theorem claim_C7 (t0 t1 : Int) (s : Summary) (d : ProcessDoc)
    (hd : create_process_doc t0 t1 s = .ok d) :
    (∀ n : Int, s.totals.transactions = some n → n ≠ 0 →
      ∃ sec, d.elapsed_time_in_secs = some sec
        ∧ d.tps = some ((n : ℚ) / pyOrRat sec 1))
    ∧ ((s.totals.transactions = none ∨ s.totals.transactions = some 0) →
      ∃ sec, d.elapsed_time_in_secs = some sec
        ∧ d.tps = some ((-1 : ℚ) / pyOrRat sec 1)
        ∧ (t0 ≤ t1 → ∃ q, d.tps = some q ∧ q < 0)) := by
  rw [create_process_doc_eq] at hd
  injection hd with hd
  subst hd
  constructor
  · intro n hn hn0
    refine ⟨_, rfl, ?_⟩
    simp [pyOrInt, hn, hn0]
  · intro habs
    refine ⟨_, rfl, ?_, ?_⟩
    · rcases habs with h | h <;> simp [pyOrInt, h]
    · intro hle
      refine ⟨_, rfl, ?_⟩
      have hnum : ((pyOrInt s.totals.transactions (-1) : Int) : ℚ) = -1 := by
        rcases habs with h | h <;> simp [pyOrInt, h]
      rw [hnum]
      have hsec : (0 : ℚ) ≤ (Int.tdiv (t1 - t0) 1000 : ℚ) / 1000 := by
        have hms : (0 : Int) ≤ Int.tdiv (t1 - t0) 1000 :=
          Int.tdiv_nonneg (by omega) (by norm_num)
        have : (0 : ℚ) ≤ (Int.tdiv (t1 - t0) 1000 : ℚ) := by exact_mod_cast hms
        positivity
      exact div_neg_of_neg_of_pos (by norm_num) (pyOrRat_pos _ hsec)

/-- C7 witness: the theorem applied to `c7s` at zero elapsed time:
a present-but-zero count gives a strictly negative throughput. -/
theorem claim_C7_witness :
    c7doc.tps = some ((-1 : ℚ) / pyOrRat 0 1)
    ∧ (-1 : ℚ) / pyOrRat 0 1 < 0 := by
  have hd : create_process_doc 0 0 c7s = .ok c7doc := by
    rw [create_process_doc_eq]
    norm_num [c7s, c7doc, pyOrInt, pyOrRat, isoformat_zero]
  have h := (claim_C7 0 0 c7s c7doc hd).2 (Or.inr rfl)
  obtain ⟨sec, hsec, htps, hneg⟩ := h
  have hsec0 : sec = 0 := by
    have : c7doc.elapsed_time_in_secs = some (0 : ℚ) := rfl
    rw [this] at hsec
    injection hsec with hsec
    exact hsec.symm
  subst hsec0
  refine ⟨htps, ?_⟩
  obtain ⟨q, hq, hq0⟩ := hneg le_rfl
  rw [htps] at hq
  injection hq with hq
  rwa [hq]

/-- C10: `move_file` on a missing source returns `false` (the catch-all
never lets an exception escape); the destination directory is created
(when `makedirs` itself does not fault) before any move is attempted,
on every path; and every exception the `try` body raises is converted
into a `false` return. -/
theorem claim_C10 (fs : MoveFS) (faults : MoveFaults)
    (file_name from_path to_path : String) :
    (pathJoin from_path file_name ∉ fs.files →
      (move_file fs faults file_name from_path to_path).1 = false)
    ∧ (faults.makedirsFault = false →
      to_path ∈ (move_file fs faults file_name from_path to_path).2.dirs)
    ∧ (∀ e, (move_file_try fs faults file_name from_path to_path).1 = .exn e →
      (move_file fs faults file_name from_path to_path).1 = false) := by
  refine ⟨?_, ?_, ?_⟩
  · intro hsrc
    by_cases hmk : faults.makedirsFault
    · simp [move_file, move_file_try, hmk]
    · simp [move_file, move_file_try, hmk, hsrc]
  · intro hmk
    by_cases hsrc : pathJoin from_path file_name ∈ fs.files
    · by_cases hrn : faults.renameFault
      · by_cases hdir : to_path ∈ fs.dirs <;>
          simp [move_file, move_file_try, hmk, hsrc, hrn, hdir]
      · by_cases hdir : to_path ∈ fs.dirs <;>
          simp [move_file, move_file_try, hmk, hsrc, hrn, hdir]
    · by_cases hdir : to_path ∈ fs.dirs <;>
        simp [move_file, move_file_try, hmk, hsrc, hdir]
  · intro e he
    unfold move_file
    rw [show (move_file_try fs faults file_name from_path to_path)
        = ((move_file_try fs faults file_name from_path to_path).1,
           (move_file_try fs faults file_name from_path to_path).2) from rfl, he]

/-- C10 witness: a missing source returns `false` with the destination
directory created, and a rename fault on an existing source also
returns `false`. -/
theorem claim_C10_witness :
    (move_file ⟨["x"], []⟩ ⟨false, false⟩ "a.csv" "in" "out").1 = false
    ∧ "out" ∈ (move_file ⟨["x"], []⟩ ⟨false, false⟩ "a.csv" "in" "out").2.dirs
    ∧ (move_file ⟨["in/a.csv"], []⟩ ⟨false, true⟩ "a.csv" "in" "out").1 = false := by
  refine ⟨(claim_C10 ⟨["x"], []⟩ ⟨false, false⟩ "a.csv" "in" "out").1 (by decide),
    (claim_C10 ⟨["x"], []⟩ ⟨false, false⟩ "a.csv" "in" "out").2.1 rfl,
    (claim_C10 ⟨["in/a.csv"], []⟩ ⟨false, true⟩ "a.csv" "in" "out").2.2
      "rename failed" (by decide)⟩

/-- C8: `get_first_available_file` returns `none` when the watch
directory is unconfigured, does not exist, or holds no regular file;
otherwise it returns the lexicographically first (ascending) or last
(descending, when the reverse flag is set) regular file name paired
with its joined full path; and when the selector yields `none` the
orchestrator returns `None` and creates no job record. -/
theorem claim_C8 :
    (∀ fs fp rev, fp.repo_path = none → get_first_available_file fs fp rev = none)
    ∧ (∀ fs fp rev rp, fp.repo_path = some rp → List.lookup rp fs.dirs = none →
        get_first_available_file fs fp rev = none)
    ∧ (∀ fs fp rev rp entries, fp.repo_path = some rp →
        List.lookup rp fs.dirs = some entries →
        (entries.filter (fun e => e.isFile)).map (fun e => e.name) = [] →
        get_first_available_file fs fp rev = none)
    ∧ (∀ fs fp rp entries files, fp.repo_path = some rp → rp ≠ "" →
        List.lookup rp fs.dirs = some entries →
        files = (entries.filter (fun e => e.isFile)).map (fun e => e.name) →
        files ≠ [] →
        (∃ r, get_first_available_file fs fp false = some r
          ∧ r.full_path = pathJoin rp r.file_name
          ∧ r.file_name ∈ files ∧ ∀ x ∈ files, r.file_name ≤ x)
        ∧ (∃ r, get_first_available_file fs fp true = some r
          ∧ r.full_path = pathJoin rp r.file_name
          ∧ r.file_name ∈ files ∧ ∀ x ∈ files, x ≤ r.file_name))
    ∧ (∀ ops store fp, ops.selectResult = .ok none →
        (process_next_file ops store fp).result = .ok none
        ∧ (process_next_file ops store fp).trace.createJobCalls = 0
        ∧ (process_next_file ops store fp).store = store) := by
  refine ⟨?_, ?_, ?_, ?_, ?_⟩
  · intro fs fp rev h
    simp [get_first_available_file, h]
  · intro fs fp rev rp hrp hlook
    by_cases hne : rp = ""
    · simp [get_first_available_file, hrp, hne]
    · simp [get_first_available_file, hrp, hne, hlook]
  · intro fs fp rev rp entries hrp hlook hempty
    by_cases hne : rp = ""
    · simp [get_first_available_file, hrp, hne]
    · simp [get_first_available_file, hrp, hne, hlook, hempty]
  · intro fs fp rp entries files hrp hne hlook hfiles hfne
    have hget : ∀ rev h, (sortFiles rev files).head? = some h →
        get_first_available_file fs fp rev = some ⟨h, pathJoin rp h⟩ := by
      intro rev h hh
      have hemp : files.isEmpty = false := by
        cases files with
        | nil => exact absurd rfl hfne
        | cons a t => rfl
      simp only [get_first_available_file, hrp, if_neg hne, hlook, ← hfiles, hemp]
      rw [hh]
      rfl
    constructor
    · obtain ⟨h, hh, hmem, hmin, _⟩ := sortFiles_head false files hfne
      exact ⟨⟨h, pathJoin rp h⟩, hget false h hh, rfl, hmem, hmin rfl⟩
    · obtain ⟨h, hh, hmem, _, hmax⟩ := sortFiles_head true files hfne
      exact ⟨⟨h, pathJoin rp h⟩, hget true h hh, rfl, hmem, hmax rfl⟩
  · intro ops store fp h
    refine ⟨?_, ?_, ?_⟩ <;> simp [process_next_file, process_body, h]

/-- C8 witness: on the concrete listing `{b.csv, a.csv, sub/}` the
selector picks `a.csv` with its joined path, and a run whose selector
finds nothing returns `None`. -/
theorem claim_C8_witness :
    get_first_available_file c8fs c8fp false = some ⟨"a.csv", "d/a.csv"⟩
    ∧ (process_next_file c8ops c8store c8fp).result = .ok none := by
  constructor
  · obtain ⟨r, hr, hpath, hmem, hmin⟩ :=
      (claim_C8.2.2.2.1 c8fs c8fp "d" c8entries ["b.csv", "a.csv"]
        rfl (by decide) rfl (by decide) (by decide)).1
    have hname : r.file_name = "a.csv" := by
      have hba : ¬ ("b.csv" ≤ "a.csv") := by
        rw [String.le_iff_toList_le]
        decide
      rcases List.mem_cons.mp hmem with h | h
      · exact absurd (h ▸ hmin "a.csv" (by simp)) hba
      · simpa using h
    rw [hr]
    cases r with
    | mk fn fpp => simp_all [pathJoin]
  · exact (claim_C8.2.2.2.2 c8ops c8store c8fp rfl).1

/-- C1 counterexample: a fault raised by the selector — i.e. before any
file was selected — does *not* propagate to the caller: the invocation
swallows it and returns `None`, contradicting the claimed
"propagates iff before a file was selected". -/
theorem claim_C1_cex :
    c1ops.selectResult = .exn "selector down"
    ∧ (process_next_file c1ops c1store c1fp).result = .ok none
    ∧ (process_next_file c1ops c1store c1fp).result.isExn = false := by
  exact ⟨rfl, rfl, rfl⟩

/-- C1 (amended): every fault raised in the main body (selection, job
creation, transformation, metrics, record update) is caught and the
invocation returns normally; a fault propagates to the caller exactly
when a file *was* selected and the queue-cleanup step in the `finally`
block itself faults, and the propagated exception is the cleanup one. -/
theorem claim_C1 (ops : Ops) (store : MongoCommonCollections) (fp : FilesPath) :
    ((process_next_file ops store fp).result.isExn = true
      ↔ ((∃ f, ops.selectResult = .ok (some f)) ∧ ops.cleanupFault ≠ none))
    ∧ (∀ e, (process_next_file ops store fp).result = .exn e →
        ops.cleanupFault = some e) := by
  rcases hsel : ops.selectResult with f? | e0
  · cases f? with
    | none => simp [process_next_file, process_body, hsel, PyResult.isExn]
    | some f =>
      rcases hcl : ops.cleanupFault with _ | ec
      · rcases hcj : ops.createJobFault with _ | e1
        · rcases himp : ops.importResult with s | e2
          · rcases hupd : ops.updateJobFault with _ | e3
            · simp [process_next_file, process_body, hsel, hcl, hcj, himp, hupd,
                create_process_doc_eq, PyResult.isExn]
            · simp [process_next_file, process_body, hsel, hcl, hcj, himp, hupd,
                create_process_doc_eq, PyResult.isExn]
          · simp [process_next_file, process_body, hsel, hcl, hcj, himp, PyResult.isExn]
        · simp [process_next_file, process_body, hsel, hcl, hcj, PyResult.isExn]
      · rcases hcj : ops.createJobFault with _ | e1
        · rcases himp : ops.importResult with s | e2
          · rcases hupd : ops.updateJobFault with _ | e3
            · simp [process_next_file, process_body, hsel, hcl, hcj, himp, hupd,
                create_process_doc_eq, PyResult.isExn]
            · simp [process_next_file, process_body, hsel, hcl, hcj, himp, hupd,
                create_process_doc_eq, PyResult.isExn]
          · simp [process_next_file, process_body, hsel, hcl, hcj, himp, PyResult.isExn]
        · simp [process_next_file, process_body, hsel, hcl, hcj, PyResult.isExn]
  · simp [process_next_file, process_body, hsel, PyResult.isExn]

/-- C1 witness: with a file selected and a faulting cleanup step, the
fault propagates and is the cleanup exception. -/
theorem claim_C1_witness :
    (process_next_file c1wops c1store c1fp).result.isExn = true
    ∧ c1wops.cleanupFault = some "cleanup down" :=
  ⟨(claim_C1 c1wops c1store c1fp).1.mpr
      ⟨⟨⟨"f.csv", "d/f.csv"⟩, rfl⟩, by simp [c1wops]⟩,
    rfl⟩

/-- C2 counterexample: a run in which a file is selected but the job
recorder's create call faults performs *zero* relocation attempts and
*zero* job-record updates (the cleanup step still runs once), refuting
"exactly one relocation attempt and exactly one terminal update on
both the normal and the fault exit path". -/
theorem claim_C2_cex :
    c2ops.selectResult = .ok (some c2file)
    ∧ (process_next_file c2ops c2store c2fp).trace.moveCalls = 0
    ∧ (process_next_file c2ops c2store c2fp).trace.updateJobCalls = 0
    ∧ (process_next_file c2ops c2store c2fp).trace.cleanupCalls = 1 := by
  exact ⟨rfl, rfl, rfl, rfl⟩

/-- C2 (amended): whenever a file is selected the queue-cleanup step is
invoked exactly once, on every exit path; the relocation attempt and the
terminal job-record update each happen *at most* once, and exactly once
on every run whose component calls do not fault — in particular even
when the Transformer merely *reports* failure via the `FAIL` flag. -/
theorem claim_C2 (ops : Ops) (store : MongoCommonCollections) (fp : FilesPath)
    (f : FileToProc) (hsel : ops.selectResult = .ok (some f)) :
    (process_next_file ops store fp).trace.cleanupCalls = 1
    ∧ (process_next_file ops store fp).trace.moveCalls ≤ 1
    ∧ (process_next_file ops store fp).trace.updateJobCalls ≤ 1
    ∧ (ops.createJobFault = none → ops.updateJobFault = none →
        ∀ s, ops.importResult = .ok s →
          (process_next_file ops store fp).trace.moveCalls = 1
          ∧ (process_next_file ops store fp).trace.updateJobCalls = 1) := by
  rcases hcl : ops.cleanupFault with _ | ec <;>
    rcases hcj : ops.createJobFault with _ | e1
  · rcases himp : ops.importResult with s | e2
    · rcases hupd : ops.updateJobFault with _ | e3 <;>
        simp [process_next_file, process_body, hsel, hcl, hcj, himp, hupd,
          create_process_doc_eq]
    · simp [process_next_file, process_body, hsel, hcl, hcj, himp]
  · simp [process_next_file, process_body, hsel, hcl, hcj]
  · rcases himp : ops.importResult with s | e2
    · rcases hupd : ops.updateJobFault with _ | e3 <;>
        simp [process_next_file, process_body, hsel, hcl, hcj, himp, hupd,
          create_process_doc_eq]
    · simp [process_next_file, process_body, hsel, hcl, hcj, himp]
  · simp [process_next_file, process_body, hsel, hcl, hcj]

/-- C2 witness: a fault-free run over `c6s` with the file `c2file`
selected performs the cleanup once, one relocation attempt and one
job-record update. -/
theorem claim_C2_witness :
    (process_next_file c2wops c2store c2fp).trace.cleanupCalls = 1
    ∧ (process_next_file c2wops c2store c2fp).trace.moveCalls = 1
    ∧ (process_next_file c2wops c2store c2fp).trace.updateJobCalls = 1 := by
  have h := claim_C2 c2wops c2store c2fp c2file rfl
  exact ⟨h.1, (h.2.2.2 rfl rfl c6s rfl).1, (h.2.2.2 rfl rfl c6s rfl).2⟩

/-- C4 counterexample: on a fault-free run the returned `hist_doc`
still contains the scalar metric fields (`start_time`, `tps`, …): only
the *copy* stored inside the job record's `summary` slot is scrubbed,
so "the result document returned to the caller contains only nested
sub-document fields" is false. -/
theorem claim_C4_cex :
    (process_next_file c4ops c4store c4fp).result
      = .ok (some { file_name := "f.csv", hist_doc := some c4doc })
    ∧ c4doc.start_time ≠ none
    ∧ c4doc.tps ≠ none := by
  refine ⟨?_, by simp [c4doc], by simp [c4doc]⟩
  simp [process_next_file, process_body, c4ops, c4summary, c4fp, c4file, c4store,
    c4doc, create_process_doc_eq, mvOut, strTruthy, summaryRet, update_job,
    create_job, isoformat_zero, pyOrInt, pyOrRat, OnFileProcErr.FAIL,
    OnFileProcErr.OK]

/-- C4 (amended): on a fault-free run the six scalar metric fields are
moved out of the *copy* of the metrics document stored in the job
record's `summary` slot and into the record's stage slot (the copy
retains only the nested `totals`/`error` sub-documents), while the
result document returned to the caller (`hist_doc`) is the unmodified
metrics document and still contains all six scalar fields. -/
theorem claim_C4 (ops : Ops) (store : MongoCommonCollections) (fp : FilesPath)
    (f : FileToProc) (s : Summary)
    (hsel : ops.selectResult = .ok (some f)) (hcj : ops.createJobFault = none)
    (himp : ops.importResult = .ok s) (hupd : ops.updateJobFault = none)
    (hcl : ops.cleanupFault = none) :
    ∃ doc ss p,
      (process_next_file ops store fp).result
        = .ok (some { file_name := f.file_name, hist_doc := some doc })
      ∧ (process_next_file ops store fp).trace.updatedPayload = some p
      ∧ p.input_processor.summary = some ss
      ∧ doc.start_time.isSome = true ∧ doc.end_time.isSome = true
      ∧ doc.elapsed_time_in_millisecs.isSome = true
      ∧ doc.elapsed_time_in_secs.isSome = true
      ∧ doc.valid_transac_perc.isSome = true ∧ doc.tps.isSome = true
      ∧ ss.start_time = none ∧ ss.end_time = none
      ∧ ss.elapsed_time_in_millisecs = none ∧ ss.elapsed_time_in_secs = none
      ∧ ss.valid_transac_perc = none ∧ ss.tps = none
      ∧ some p.input_processor.start_time = doc.start_time
      ∧ p.input_processor.end_time = doc.end_time
      ∧ p.input_processor.elapsed_time_in_millisecs = doc.elapsed_time_in_millisecs
      ∧ p.input_processor.elapsed_time_in_secs = doc.elapsed_time_in_secs
      ∧ p.input_processor.valid_transac_perc = doc.valid_transac_perc
      ∧ p.input_processor.tps = doc.tps
      ∧ ss.totals = doc.totals ∧ ss.error = doc.error := by
  by_cases hsite : strTruthy s.totals.site_name = true
  · refine ⟨
      { start_time := some (isoformat ops.t0), end_time := some (isoformat ops.t1)
        elapsed_time_in_millisecs := some (Int.tdiv (ops.t1 - ops.t0) 1000)
        elapsed_time_in_secs := some ((Int.tdiv (ops.t1 - ops.t0) 1000 : ℚ) / 1000)
        valid_transac_perc :=
          some ((s.totals.records_ok : ℚ) / ((pyOrInt s.totals.raw_lines 1 : Int) : ℚ) * 100)
        tps := some (((pyOrInt s.totals.transactions (-1) : Int) : ℚ) /
          pyOrRat ((Int.tdiv (ops.t1 - ops.t0) 1000 : ℚ) / 1000) 1)
        totals := some { s.totals with site_name := none }, error := s.error },
      { totals := some { s.totals with site_name := none }, error := s.error },
      { process_id := "FileProcessor", file := f.file_name, star_date := isoformat ops.t0
        input_processor :=
          { start_time := isoformat ops.t0
            status := if summaryRet s = OnFileProcErr.FAIL then "error" else "finished"
            site_name := s.totals.site_name
            summary := some { totals := some { s.totals with site_name := none }, error := s.error }
            end_time := some (isoformat ops.t1)
            elapsed_time_in_millisecs := some (Int.tdiv (ops.t1 - ops.t0) 1000)
            elapsed_time_in_secs := some ((Int.tdiv (ops.t1 - ops.t0) 1000 : ℚ) / 1000)
            valid_transac_perc :=
              some ((s.totals.records_ok : ℚ) / ((pyOrInt s.totals.raw_lines 1 : Int) : ℚ) * 100)
            tps := some (((pyOrInt s.totals.transactions (-1) : Int) : ℚ) /
              pyOrRat ((Int.tdiv (ops.t1 - ops.t0) 1000 : ℚ) / 1000) 1) } },
      ?_, ?_, rfl, rfl, rfl, rfl, rfl, rfl, rfl, rfl, rfl, rfl, rfl, rfl, rfl,
      rfl, rfl, rfl, rfl, rfl, rfl, rfl, rfl⟩
    · simp [process_next_file, process_body, hsel, hcj, himp, hupd, hcl,
        create_process_doc_eq, hsite, mvOut]
    · simp [process_next_file, process_body, hsel, hcj, himp, hupd, hcl,
        create_process_doc_eq, hsite, mvOut]
  · refine ⟨
      { start_time := some (isoformat ops.t0), end_time := some (isoformat ops.t1)
        elapsed_time_in_millisecs := some (Int.tdiv (ops.t1 - ops.t0) 1000)
        elapsed_time_in_secs := some ((Int.tdiv (ops.t1 - ops.t0) 1000 : ℚ) / 1000)
        valid_transac_perc :=
          some ((s.totals.records_ok : ℚ) / ((pyOrInt s.totals.raw_lines 1 : Int) : ℚ) * 100)
        tps := some (((pyOrInt s.totals.transactions (-1) : Int) : ℚ) /
          pyOrRat ((Int.tdiv (ops.t1 - ops.t0) 1000 : ℚ) / 1000) 1)
        totals := some s.totals, error := s.error },
      { totals := some s.totals, error := s.error },
      { process_id := "FileProcessor", file := f.file_name, star_date := isoformat ops.t0
        input_processor :=
          { start_time := isoformat ops.t0
            status := if summaryRet s = OnFileProcErr.FAIL then "error" else "finished"
            site_name := none
            summary := some { totals := some s.totals, error := s.error }
            end_time := some (isoformat ops.t1)
            elapsed_time_in_millisecs := some (Int.tdiv (ops.t1 - ops.t0) 1000)
            elapsed_time_in_secs := some ((Int.tdiv (ops.t1 - ops.t0) 1000 : ℚ) / 1000)
            valid_transac_perc :=
              some ((s.totals.records_ok : ℚ) / ((pyOrInt s.totals.raw_lines 1 : Int) : ℚ) * 100)
            tps := some (((pyOrInt s.totals.transactions (-1) : Int) : ℚ) /
              pyOrRat ((Int.tdiv (ops.t1 - ops.t0) 1000 : ℚ) / 1000) 1) } },
      ?_, ?_, rfl, rfl, rfl, rfl, rfl, rfl, rfl, rfl, rfl, rfl, rfl, rfl, rfl,
      rfl, rfl, rfl, rfl, rfl, rfl, rfl, rfl⟩
    · simp [process_next_file, process_body, hsel, hcj, himp, hupd, hcl,
        create_process_doc_eq, hsite, mvOut]
    · simp [process_next_file, process_body, hsel, hcj, himp, hupd, hcl,
        create_process_doc_eq, hsite, mvOut]

/-- C4 witness: the amended theorem applied to the fault-free run
`c4ops`: the run returns normally and a terminal payload was stored. -/
theorem claim_C4_witness :
    (process_next_file c4ops c4store c4fp).result.isExn = false
    ∧ ((process_next_file c4ops c4store c4fp).trace.updatedPayload).isSome = true := by
  obtain ⟨doc, ss, p, h1, h2, -⟩ :=
    claim_C4 c4ops c4store c4fp c4file c4summary rfl rfl rfl rfl rfl
  constructor
  · rw [h1]; rfl
  · rw [h2]; rfl

/-- C5 counterexample: the summary the Transformer returned carries
`site_name = "Site_A"`; after the orchestrator consumes it, the summary
it logs and records has lost that field — the `ProcessingSummary` *is*
mutated after creation. -/
theorem claim_C5_cex :
    c5ops.importResult = .ok c5summary
    ∧ c5summary.totals.site_name = some "Site_A"
    ∧ (process_next_file c5ops c5store c5fp).trace.consumedSummary = some c5mut
    ∧ c5mut ≠ c5summary := by
  refine ⟨rfl, rfl, ?_, by decide⟩
  simp [process_next_file, process_body, c5ops, c5summary, c5fp, c5file, c5store,
    c5mut, create_process_doc_eq, strTruthy, update_job, create_job]

/-- C5 (amended): the summary is left unchanged exactly when its
`site_name` tag is falsy (absent or empty); when the tag is truthy the
orchestrator deletes `totals.site_name` from the summary — moving it
into the job record's stage slot — and changes nothing else. -/
theorem claim_C5 (ops : Ops) (store : MongoCommonCollections) (fp : FilesPath)
    (f : FileToProc) (s : Summary)
    (hsel : ops.selectResult = .ok (some f)) (hcj : ops.createJobFault = none)
    (himp : ops.importResult = .ok s) :
    (strTruthy s.totals.site_name = false →
      (process_next_file ops store fp).trace.consumedSummary = some s)
    ∧ (strTruthy s.totals.site_name = true →
      (process_next_file ops store fp).trace.consumedSummary
          = some { s with totals := { s.totals with site_name := none } }
      ∧ (ops.updateJobFault = none →
          ((process_next_file ops store fp).trace.updatedPayload.map
              (fun p => p.input_processor.site_name)) = some s.totals.site_name)) := by
  constructor
  · intro hsite
    rcases hupd : ops.updateJobFault with _ | e3 <;>
      rcases hcl : ops.cleanupFault with _ | ec <;>
        simp [process_next_file, process_body, hsel, hcj, himp, hupd, hcl, hsite,
          create_process_doc_eq]
  · intro hsite
    constructor
    · rcases hupd : ops.updateJobFault with _ | e3 <;>
        rcases hcl : ops.cleanupFault with _ | ec <;>
          simp [process_next_file, process_body, hsel, hcj, himp, hupd, hcl, hsite,
            create_process_doc_eq]
    · intro hupd
      rcases hcl : ops.cleanupFault with _ | ec <;>
        simp [process_next_file, process_body, hsel, hcj, himp, hupd, hcl, hsite,
          create_process_doc_eq, mvOut]

/-- C5 witness: the amended theorem applied to the fault-free run over
`c5summary`: the consumed summary is `c5mut` and the stage slot gained
the tag. -/
theorem claim_C5_witness :
    (process_next_file c5ops c5store c5fp).trace.updatedPayload.map
        (fun p => p.input_processor.site_name) = some (some "Site_A") := by
  have h := (claim_C5 c5ops c5store c5fp c5file c5summary rfl rfl rfl).2 rfl
  exact h.2 rfl

/-- C9: for every run that transforms a file, the relocation target is
the error directory exactly when the summary's error flag is `FAIL`
(and the success directory otherwise), and the terminal job payload's
stage status is `error` exactly when the flag is `FAIL` (`finished`
otherwise). -/
theorem claim_C9 (ops : Ops) (store : MongoCommonCollections) (fp : FilesPath)
    (f : FileToProc) (s : Summary)
    (hsel : ops.selectResult = .ok (some f)) (hcj : ops.createJobFault = none)
    (himp : ops.importResult = .ok s) :
    (process_next_file ops store fp).trace.movedTo
      = some (if summaryRet s = OnFileProcErr.FAIL then fp.err_path else fp.ok_path)
    ∧ (ops.updateJobFault = none →
        (process_next_file ops store fp).trace.updatedPayload.map
            (fun p => p.input_processor.status)
          = some (if summaryRet s = OnFileProcErr.FAIL then "error" else "finished")) := by
  constructor
  · rcases hupd : ops.updateJobFault with _ | e3 <;>
      rcases hcl : ops.cleanupFault with _ | ec <;>
        by_cases hsite : strTruthy s.totals.site_name = true <;>
          simp [process_next_file, process_body, hsel, hcj, himp, hupd, hcl, hsite,
            create_process_doc_eq]
  · intro hupd
    rcases hcl : ops.cleanupFault with _ | ec <;>
      by_cases hsite : strTruthy s.totals.site_name = true <;>
        simp [process_next_file, process_body, hsel, hcj, himp, hupd, hcl, hsite,
          create_process_doc_eq, mvOut]

/-- C9 witness: the theorem applied to the fault-free run over the
`FAIL`-flagged summary `c9summary`: the file goes to the error
directory and the stage status is `error`. -/
theorem claim_C9_witness :
    (process_next_file c9ops c9store c9fp).trace.movedTo = some (some "err")
    ∧ (process_next_file c9ops c9store c9fp).trace.updatedPayload.map
        (fun p => p.input_processor.status) = some "error" := by
  have h := claim_C9 c9ops c9store c9fp c9file c9summary rfl rfl rfl
  constructor
  · simpa [summaryRet, c9summary, c9fp, OnFileProcErr.FAIL] using h.1
  · simpa [summaryRet, c9summary, OnFileProcErr.FAIL] using h.2 rfl

end FileProcessor
